import Mathlib

/-
Verification of the installment (parcela) logic of the Financeiro
accounts-receivable application.

Shallow embedding conventions:
  - money is modelled in integer cents (Int); the source stores two-decimal
    Decimal values, so every Decimal amount d corresponds to the integer
    100 * d.  Decimal quantize with ROUND_HALF_UP corresponds to
    roundHalfUpCents, quantize with ROUND_DOWN to Int.tdiv (both round the
    exact rational quotient of integers, matching Decimal arithmetic in the
    28-digit default context for the magnitudes the application handles);
  - dates are records of year, month and day, compared lexicographically,
    exactly as Python date objects compare;
  - a plan (ContaReceber) is represented by its total amount in cents and
    the list of its Parcela rows ordered by numero_parcela, which is the
    ordering the source always requests; numero_parcela acts as the row key
    within one plan (unique_together on conta and numero_parcela);
  - text fields (descricao, observacoes) and timestamps never influence the
    modelled behaviour and are omitted from the record;
  - Django queryset update bypasses the overridden save method, while
    instance save runs it; save with update_fields restricted to
    valor_parcela persists only that column.  Both are modelled explicitly;
  - saves of rows that exist in the database are the only saves the claims
    exercise; the DoesNotExist branch of Parcela.save is modelled as a plain
    write, which is never reached from the modelled entry points.
-/

namespace Financeiro

/-- The three installment statuses of Parcela.STATUS_CHOICES
(financeiro/models.py line 101). -/
inductive Status where
  | aberto
  | pago
  | vencido
deriving DecidableEq

/-- A calendar date, as Python datetime.date: a year, month and day. -/
structure Date where
  year : Int
  month : Nat
  day : Nat
deriving DecidableEq

/-- Python date comparison a < b: lexicographic on (year, month, day). -/
def Date.before (a b : Date) : Bool :=
  a.year < b.year ||
    (a.year == b.year &&
      (a.month < b.month || (a.month == b.month && a.day < b.day)))

/-- Gregorian leap-year rule, as Python calendar. -/
def isLeapYear (y : Int) : Bool :=
  (y % 4 == 0 && y % 100 != 0) || y % 400 == 0

/-- Number of days of month m of year y. -/
def daysInMonth (y : Int) (m : Nat) : Nat :=
  if m = 2 then (if isLeapYear y then 29 else 28)
  else if m = 4 ∨ m = 6 ∨ m = 9 ∨ m = 11 then 30
  else 31

/-- dateutil relativedelta(months=k) on a date: advance k calendar months,
clamping the day to the length of the target month
(used by conta_create, financeiro/views.py line 451). -/
def addMonths (d : Date) (k : Nat) : Date :=
  let tm := d.month - 1 + k
  let y := d.year + Int.ofNat (tm / 12)
  let m := tm % 12 + 1
  { year := y, month := m, day := min d.day (daysInMonth y m) }

/-- One Parcela row (financeiro/models.py lines 99 to 116), keeping the
source field names; valor_parcela is in cents. -/
structure Parcela where
  numero_parcela : Nat
  valor_parcela : Int
  data_vencimento : Date
  data_pagamento : Option Date
  status : Status
deriving DecidableEq

/-- Sum of the valor_parcela column over a list of rows, as the Django
aggregate Sum of valor_parcela. -/
def sumValor (s : List Parcela) : Int :=
  (s.map Parcela.valor_parcela).sum

/-- Decimal division num / den quantized to two decimals with
ROUND_HALF_UP, on cents: nearest integer, ties away from zero.
Requires den > 0, which every call site guarantees
(numero_parcelas is at least 1). -/
def roundHalfUpCents (num den : Int) : Int :=
  if 0 ≤ num then (2 * num + den).fdiv (2 * den)
  else -((2 * (-num) + den).fdiv (2 * den))

/-- Python parcelas[-1] += d: add d to the last element of the list.
The source never reaches this with an empty list (numero_parcelas is
validated to be at least 1); on [] it returns []. -/
def addToLast : List Int → Int → List Int
  | [], _ => []
  | [x], d => [x + d]
  | x :: y :: r, d => x :: addToLast (y :: r) d

/-- calcular_parcelas (financeiro/utils.py lines 207 to 245): the base value
is the total divided by the count, quantized half-up to the cent; every
part receives the base value and, when ajustar_ultima is set, the last part
additionally receives the difference total minus base times count. -/
def calcular_parcelas (valor_total : Int) (numero_parcelas : Nat)
    (ajustar_ultima : Bool) : List Int :=
  let valor_parcela := roundHalfUpCents valor_total numero_parcelas
  let parcelas := List.replicate numero_parcelas valor_parcela
  if ajustar_ultima then
    let soma_parcelas := valor_parcela * numero_parcelas
    let diferenca := valor_total - soma_parcelas
    addToLast parcelas diferenca
  else parcelas

/-- The status recomputation at the top of Parcela.save
(financeiro/models.py lines 128 to 130): a set payment date forces pago; a
non-pago row whose due date is strictly before today becomes vencido; any
other non-pago row becomes aberto; a pago row without payment date is left
untouched. -/
def recomputeStatusSave (p : Parcela) (hoje : Date) : Parcela :=
  if p.data_pagamento.isSome then { p with status := Status.pago }
  else if p.status != Status.pago && p.data_vencimento.before hoje then
    { p with status := Status.vencido }
  else if p.status != Status.pago then { p with status := Status.aberto }
  else p

/-- Persisting one row by key: every row holding the same numero_parcela is
replaced by the given row (the key is unique per plan in the source). -/
def writeParcela (s : List Parcela) (pw : Parcela) : List Parcela :=
  s.map (fun q => if q.numero_parcela == pw.numero_parcela then pw else q)

/-- The adjustable-set predicate of Parcela.save line 139: status aberto or
vencido, and not the row numbered num (the row being saved). -/
def ajustavelPred (num : Nat) (q : Parcela) : Bool :=
  (q.status == Status.aberto || q.status == Status.vencido) &&
    q.numero_parcela != num

/-- parcelas_ajustaveis of Parcela.save line 139, ordered by numero_parcela
(the state list is kept in that order). -/
def parcelasAjustaveis (s : List Parcela) (num : Nat) : List Parcela :=
  s.filter (ajustavelPred num)

/-- soma_nao_ajustaveis of Parcela.save line 142: the valor sum over the
rows excluded from the adjustable set. -/
def somaNaoAjustaveis (s : List Parcela) (num : Nat) : Int :=
  sumValor (s.filter (fun q => !(ajustavelPred num q)))

/-- One execution of the body of Parcela.save (financeiro/models.py lines
121 to 156) on an existing row p, against plan state and total
valorTotal, with hoje injected for date.today().  persistAll is true for a
plain save and false for save(update_fields restricted to valor_parcela),
in which case only the valor column reaches the database.  The result is
the new state paired with the pending nested save that line 151 issues on
the last adjustable row when a nonzero residue was assigned to it. -/
def saveStep (valorTotal : Int) (persistAll : Bool) (state : List Parcela)
    (p : Parcela) (hoje : Date) : List Parcela × Option Parcela :=
  let p' := recomputeStatusSave p hoje
  let pw := if persistAll then p' else { p' with status := p.status }
  match state.find? (fun q => q.numero_parcela == p.numero_parcela) with
  | none => (writeParcela state pw, none)
  | some versaoAntiga =>
    if versaoAntiga.valor_parcela ≠ p'.valor_parcela ∧
        p'.status ≠ Status.pago then
      let state1 := writeParcela state pw
      let ajustaveis := parcelasAjustaveis state1 p.numero_parcela
      let numAjustaveis := ajustaveis.length
      if 0 < numAjustaveis then
        let saldo := valorTotal - somaNaoAjustaveis state1 p.numero_parcela
        let valorBase := saldo.tdiv numAjustaveis
        let state2 := state1.map (fun q =>
          if ajustavelPred p.numero_parcela q then
            { q with valor_parcela := valorBase } else q)
        let residuo := saldo - valorBase * numAjustaveis
        match (parcelasAjustaveis state2 p.numero_parcela).getLast? with
        | some ultima =>
          if residuo ≠ 0 then
            (state2,
              some { ultima with
                valor_parcela := ultima.valor_parcela + residuo })
          else (state2, none)
        | none => (state2, none)
      else (state1, none)
    else (writeParcela state pw, none)

/-- Parcela.save together with the chain of nested saves it triggers
through line 151; each nested save persists only valor_parcela.  fuel
bounds the chain length (every scenario proved below finishes within it
and is independent of fuel). -/
def saveParcela : Nat → Int → Bool → List Parcela → Parcela → Date →
    List Parcela
  | 0, valorTotal, persistAll, state, p, hoje =>
    (saveStep valorTotal persistAll state p hoje).1
  | fuel + 1, valorTotal, persistAll, state, p, hoje =>
    match saveStep valorTotal persistAll state p hoje with
    | (s, none) => s
    | (s, some proxima) => saveParcela fuel valorTotal false s proxima hoje

/-- parcela_dar_baixa (financeiro/views.py lines 641 to 666): none models
the 404 on an unknown key; on a pago row the action warns (true) and leaves
the state untouched; otherwise it sets data_pagamento to today and runs a
full save. -/
def parcelaDarBaixa (fuel : Nat) (valorTotal : Int) (state : List Parcela)
    (pk : Nat) (hoje : Date) : Option (Bool × List Parcela) :=
  match state.find? (fun q => q.numero_parcela == pk) with
  | none => none
  | some parcela =>
    if parcela.status = Status.pago then some (true, state)
    else
      some (false, saveParcela fuel valorTotal true state
        { parcela with data_pagamento := some hoje } hoje)

/-- parcela_estornar (financeiro/views.py lines 114 to 160): on a row that
is not pago the action warns (true) and changes nothing; otherwise it
clears data_pagamento, presets the status from the due date against today
and runs a full save. -/
def parcelaEstornar (fuel : Nat) (valorTotal : Int) (state : List Parcela)
    (pk : Nat) (hoje : Date) : Option (Bool × List Parcela) :=
  match state.find? (fun q => q.numero_parcela == pk) with
  | none => none
  | some parcela =>
    if parcela.status ≠ Status.pago then some (true, state)
    else
      some (false, saveParcela fuel valorTotal true state
        { parcela with
            data_pagamento := none,
            status := if parcela.data_vencimento.before hoje then
              Status.vencido else Status.aberto } hoje)

/-- parcela_update (financeiro/views.py lines 669 to 720): a pago row is
locked, reported (true) and nothing changes; otherwise the form writes the
new valor and due date on the instance and saves it in full, which
triggers the rebalancing of Parcela.save. -/
def parcelaUpdate (fuel : Nat) (valorTotal : Int) (state : List Parcela)
    (pk : Nat) (novoValor : Int) (novoVencimento : Date) (hoje : Date) :
    Option (Bool × List Parcela) :=
  match state.find? (fun q => q.numero_parcela == pk) with
  | none => none
  | some parcela =>
    if parcela.status = Status.pago then some (true, state)
    else
      some (false, saveParcela fuel valorTotal true state
        { parcela with
            valor_parcela := novoValor,
            data_vencimento := novoVencimento } hoje)

/-- Plan generation in conta_create (financeiro/views.py lines 438 to 470):
a half-up base value, numParcelas rows numbered from 1 with due dates one
month apart, bulk inserted (no save hook), then the cent difference is
added to the highest-numbered row through a full instance save. -/
def contaCreate (fuel : Nat) (valorTotal : Int) (numParcelas : Nat)
    (primeiroVencimento hoje : Date) : List Parcela :=
  let valorParcela := roundHalfUpCents valorTotal numParcelas
  let parcelas := (List.range numParcelas).map (fun i =>
    { numero_parcela := i + 1,
      valor_parcela := valorParcela,
      data_vencimento := addMonths primeiroVencimento i,
      data_pagamento := none,
      status := Status.aberto : Parcela })
  let diferenca := valorTotal - valorParcela * numParcelas
  if diferenca ≠ 0 then
    match parcelas.getLast? with
    | some ultima =>
      saveParcela fuel valorTotal true parcelas
        { ultima with valor_parcela := ultima.valor_parcela + diferenca }
        hoje
    | none => parcelas
  else parcelas

/-- The overdue sweep of conta_detail (financeiro/views.py lines 513 to
525): a queryset update (no save hook) turning every aberto row whose due
date is strictly before today into vencido. -/
def atualizaVencidas (state : List Parcela) (hoje : Date) : List Parcela :=
  state.map (fun q =>
    if q.status == Status.aberto && q.data_vencimento.before hoje then
      { q with status := Status.vencido } else q)

/-- limpar_documento (financeiro/forms.py lines 13 to 29): keep only the
digit characters of the input. -/
def limpar_documento (s : String) : List Char :=
  s.data.filter Char.isDigit

/-- Numeric value of a digit character, as Python int on one digit. -/
def digitVal (c : Char) : Nat := c.toNat - 48

/-- validate_cpf (financeiro/forms.py lines 32 to 73).  The index access
cpf[0] is modelled with headD, guarded by the emptiness check exactly as in
the source. -/
def validate_cpf (s : String) : Bool :=
  let cpf := limpar_documento s
  if cpf = [] ∨ cpf.length ≠ 11 then false
  else if cpf = List.replicate 11 (cpf.headD '0') then false
  else
    let d := cpf.map digitVal
    let soma1 := ((List.range 9).map (fun i => d.getD i 0 * (10 - i))).sum
    let digito1 := soma1 * 10 % 11 % 10
    if digito1 ≠ d.getD 9 0 then false
    else
      let soma2 := ((List.range 10).map (fun i => d.getD i 0 * (11 - i))).sum
      let digito2 := soma2 * 10 % 11 % 10
      if digito2 ≠ d.getD 10 0 then false
      else true

/-- validate_cnpj (financeiro/forms.py lines 76 to 123). -/
def validate_cnpj (s : String) : Bool :=
  let cnpj := limpar_documento s
  if cnpj = [] ∨ cnpj.length ≠ 14 then false
  else if cnpj = List.replicate 14 (cnpj.headD '0') then false
  else
    let d := cnpj.map digitVal
    let m1 : List Nat := [5, 4, 3, 2, 9, 8, 7, 6, 5, 4, 3, 2]
    let soma1 := ((List.range 12).map (fun i => d.getD i 0 * m1.getD i 0)).sum
    let digito1 := 11 - soma1 % 11
    let digito1 := if 10 ≤ digito1 then 0 else digito1
    if digito1 ≠ d.getD 12 0 then false
    else
      let m2 : List Nat := [6, 5, 4, 3, 2, 9, 8, 7, 6, 5, 4, 3, 2]
      let soma2 := ((List.range 13).map (fun i => d.getD i 0 * m2.getD i 0)).sum
      let digito2 := 11 - soma2 % 11
      let digito2 := if 10 ≤ digito2 then 0 else digito2
      if digito2 ≠ d.getD 13 0 then false
      else true

/-- The even share computed by the rebalancing block of Parcela.save line
144 when the row p is saved against state: the remaining balance truncated
(ROUND_DOWN) over the number of adjustable rows, both read from the
database state after the edited row was persisted. -/
def valorBaseRebalance (T : Int) (state : List Parcela) (p : Parcela)
    (hoje : Date) : Int :=
  let state1 := writeParcela state (recomputeStatusSave p hoje)
  (T - somaNaoAjustaveis state1 p.numero_parcela).tdiv
    ((parcelasAjustaveis state1 p.numero_parcela).length : Int)

/-- The residue of Parcela.save line 147 for the save of row p. -/
def residuoRebalance (T : Int) (state : List Parcela) (p : Parcela)
    (hoje : Date) : Int :=
  let state1 := writeParcela state (recomputeStatusSave p hoje)
  (T - somaNaoAjustaveis state1 p.numero_parcela) -
    valorBaseRebalance T state p hoje *
      ((parcelasAjustaveis state1 p.numero_parcela).length : Int)

/-- The database state right after the bulk update of Parcela.save line
145: the edited row persisted, every adjustable row holding the even
share. -/
def rebalanceResultado (T : Int) (state : List Parcela) (p : Parcela)
    (hoje : Date) : List Parcela :=
  (writeParcela state (recomputeStatusSave p hoje)).map (fun q =>
    if ajustavelPred p.numero_parcela q then
      { q with valor_parcela := valorBaseRebalance T state p hoje }
    else q)

/-! Generic list helpers used throughout the development. -/

theorem sumValor_append (a b : List Parcela) :
    sumValor (a ++ b) = sumValor a + sumValor b := by
  simp [sumValor]

theorem sumValor_filter_split (p : Parcela → Bool) (s : List Parcela) :
    sumValor (s.filter p) + sumValor (s.filter fun q => !(p q)) = sumValor s := by
  induction s with
  | nil => simp [sumValor]
  | cons x t ih =>
    by_cases h : p x = true <;>
      simp [List.filter_cons, h, sumValor, List.sum_cons] at ih ⊢ <;> omega

theorem map_eq_self_of {f : Parcela → Parcela} {l : List Parcela}
    (h : ∀ x ∈ l, f x = x) : l.map f = l :=
  (List.map_congr_left h).trans (List.map_id l)

theorem find?_append_left_none {p : Parcela → Bool} {A B : List Parcela}
    (h : ∀ x ∈ A, p x = false) : (A ++ B).find? p = B.find? p := by
  induction A with
  | nil => simp
  | cons x t ih =>
    have hx := h x (by simp)
    simp only [List.cons_append, List.find?_cons, hx]
    exact ih (fun y hy => h y (by simp [hy]))

theorem sumValor_map_range {g : Nat → Parcela} {v : Int}
    (h : ∀ i, (g i).valor_parcela = v) (k : Nat) :
    sumValor ((List.range k).map g) = k * v := by
  induction k with
  | zero => simp [sumValor]
  | succ m ih =>
    rw [List.range_succ, List.map_append, sumValor_append, ih]
    simp [sumValor, h]
    ring

/-! Facts about the status recomputation of Parcela.save. -/

theorem recompute_numero (p : Parcela) (hoje : Date) :
    (recomputeStatusSave p hoje).numero_parcela = p.numero_parcela := by
  unfold recomputeStatusSave
  split <;> (try split) <;> (try split) <;> rfl

theorem recompute_valor (p : Parcela) (hoje : Date) :
    (recomputeStatusSave p hoje).valor_parcela = p.valor_parcela := by
  unfold recomputeStatusSave
  split <;> (try split) <;> (try split) <;> rfl

theorem recompute_of_some {p : Parcela} (hoje : Date) {d : Date}
    (hpag : p.data_pagamento = some d) :
    recomputeStatusSave p hoje = { p with status := Status.pago } := by
  unfold recomputeStatusSave
  simp [hpag]

theorem recompute_of_unpaid {p : Parcela} (hoje : Date)
    (hpag : p.data_pagamento = none) (hs : p.status ≠ Status.pago) :
    recomputeStatusSave p hoje =
      { p with status := if p.data_vencimento.before hoje then Status.vencido
          else Status.aberto } := by
  unfold recomputeStatusSave
  by_cases hb : p.data_vencimento.before hoje = true <;>
    simp [hpag, hs, hb, bne_iff_ne]

theorem recompute_of_pago_none {p : Parcela} (hoje : Date)
    (hpag : p.data_pagamento = none) (hs : p.status = Status.pago) :
    recomputeStatusSave p hoje = p := by
  unfold recomputeStatusSave
  simp [hpag, hs, bne_iff_ne]

/-! Facts about saveStep and the fuelled save driver. -/

theorem saveParcela_step_none (fuel : Nat) (T : Int) (pa : Bool)
    (state : List Parcela) (p : Parcela) (hoje : Date) (s : List Parcela)
    (h : saveStep T pa state p hoje = (s, none)) :
    saveParcela fuel T pa state p hoje = s := by
  cases fuel with
  | zero => simp [saveParcela, h]
  | succ f => simp [saveParcela, h]

theorem saveStep_plain_true (T : Int) (state : List Parcela) (p old : Parcela)
    (hoje : Date)
    (hfind : state.find? (fun q => q.numero_parcela == p.numero_parcela) =
      some old)
    (hval : old.valor_parcela = p.valor_parcela) :
    saveStep T true state p hoje =
      (writeParcela state (recomputeStatusSave p hoje), none) := by
  unfold saveStep
  rw [hfind]
  dsimp only
  rw [if_neg]
  · simp
  · intro hcon
    rw [recompute_valor] at hcon
    exact hcon.1 hval

theorem ajustavelPred_self_num {pw : Parcela} {num : Nat}
    (h : pw.numero_parcela = num) : ajustavelPred num pw = false := by
  simp [ajustavelPred, h]

theorem ajustaveis_writeParcela (state : List Parcela) (pw : Parcela)
    (num : Nat) (hnum : pw.numero_parcela = num) :
    parcelasAjustaveis (writeParcela state pw) num =
      parcelasAjustaveis state num := by
  induction state with
  | nil => rfl
  | cons x t ih =>
    simp only [writeParcela, List.map_cons, parcelasAjustaveis,
      List.filter_cons] at ih ⊢
    by_cases hx : x.numero_parcela = pw.numero_parcela
    · have h1 : ajustavelPred num pw = false := ajustavelPred_self_num hnum
      have h2 : ajustavelPred num x = false :=
        ajustavelPred_self_num (by rw [hx, hnum])
      simp [hx, h1, h2]
      simpa using ih
    · simp [hx]
      have ih2 := ih
      simp only [beq_iff_eq] at ih2
      rw [ih2]

theorem recompute_unpaid_status_ne {p : Parcela} (hoje : Date)
    (hpag : p.data_pagamento = none) (hs : p.status ≠ Status.pago) :
    (recomputeStatusSave p hoje).status ≠ Status.pago := by
  rw [recompute_of_unpaid hoje hpag hs]
  by_cases hb : p.data_vencimento.before hoje = true <;> simp [hb]

theorem saveStep_rebalance_empty (T : Int) (state : List Parcela)
    (p old : Parcela) (hoje : Date)
    (hfind : state.find? (fun q => q.numero_parcela == p.numero_parcela) =
      some old)
    (hpag : p.data_pagamento = none)
    (hstat : p.status ≠ Status.pago)
    (hval : old.valor_parcela ≠ p.valor_parcela)
    (hAj : (parcelasAjustaveis state p.numero_parcela).length = 0) :
    saveStep T true state p hoje =
      (writeParcela state (recomputeStatusSave p hoje), none) := by
  have hnum := recompute_numero p hoje
  have hv := recompute_valor p hoje
  have hs' := recompute_unpaid_status_ne hoje hpag hstat
  have hAjw : parcelasAjustaveis
      (writeParcela state (recomputeStatusSave p hoje)) p.numero_parcela =
        parcelasAjustaveis state p.numero_parcela :=
    ajustaveis_writeParcela state _ _ hnum
  unfold saveStep
  rw [hfind]
  dsimp only
  rw [if_pos ⟨by rw [hv]; exact hval, hs'⟩]
  simp only [if_true]
  rw [hAjw, hAj]
  simp

theorem saveStep_rebalance_zero (T : Int) (state : List Parcela)
    (p old : Parcela) (hoje : Date)
    (hfind : state.find? (fun q => q.numero_parcela == p.numero_parcela) =
      some old)
    (hpag : p.data_pagamento = none)
    (hstat : p.status ≠ Status.pago)
    (hval : old.valor_parcela ≠ p.valor_parcela)
    (hAj : 0 < (parcelasAjustaveis state p.numero_parcela).length)
    (hres : residuoRebalance T state p hoje = 0) :
    saveStep T true state p hoje = (rebalanceResultado T state p hoje, none) := by
  have hnum := recompute_numero p hoje
  have hv := recompute_valor p hoje
  have hs' := recompute_unpaid_status_ne hoje hpag hstat
  have hAjw : parcelasAjustaveis
      (writeParcela state (recomputeStatusSave p hoje)) p.numero_parcela =
        parcelasAjustaveis state p.numero_parcela :=
    ajustaveis_writeParcela state _ _ hnum
  unfold residuoRebalance valorBaseRebalance at hres
  dsimp only at hres
  unfold saveStep rebalanceResultado valorBaseRebalance
  rw [hfind]
  dsimp only
  rw [if_pos ⟨by rw [hv]; exact hval, hs'⟩]
  simp only [if_true]
  rw [if_pos (by rw [hAjw]; exact hAj)]
  split
  · rw [if_neg]
    intro hcon
    exact hcon hres
  · rfl

theorem saveParcela_rebalance_zero_run (fuel : Nat) (T : Int)
    (state : List Parcela) (p old : Parcela) (hoje : Date)
    (hfind : state.find? (fun q => q.numero_parcela == p.numero_parcela) =
      some old)
    (hpag : p.data_pagamento = none)
    (hstat : p.status ≠ Status.pago)
    (hval : old.valor_parcela ≠ p.valor_parcela)
    (hAj : 0 < (parcelasAjustaveis state p.numero_parcela).length)
    (hres : residuoRebalance T state p hoje = 0) :
    saveParcela fuel T true state p hoje = rebalanceResultado T state p hoje :=
  saveParcela_step_none fuel T true state p hoje _
    (saveStep_rebalance_zero T state p old hoje hfind hpag hstat hval hAj hres)

theorem sumValor_map_ajustavel (state1 : List Parcela) (num : Nat) (vb : Int) :
    sumValor (state1.map (fun q =>
        if ajustavelPred num q then { q with valor_parcela := vb } else q)) =
      somaNaoAjustaveis state1 num +
        ((parcelasAjustaveis state1 num).length : Int) * vb := by
  induction state1 with
  | nil => simp [sumValor, somaNaoAjustaveis, parcelasAjustaveis]
  | cons x t ih =>
    by_cases hx : ajustavelPred num x = true <;>
      simp [sumValor, somaNaoAjustaveis, parcelasAjustaveis,
        List.filter_cons, hx] at ih ⊢ <;>
      linear_combination ih

theorem find?_writeParcela {state : List Parcela} {pw old : Parcela}
    {num : Nat} (hnum : pw.numero_parcela = num)
    (hold : state.find? (fun q => q.numero_parcela == num) = some old) :
    (writeParcela state pw).find? (fun q => q.numero_parcela == num) =
      some pw := by
  induction state with
  | nil => simp at hold
  | cons x t ih =>
    by_cases hx : x.numero_parcela = num
    · have hx2 : x.numero_parcela = pw.numero_parcela := by rw [hx, hnum]
      simp [writeParcela, List.find?_cons, hx2, hnum]
    · have hx2 : ¬ x.numero_parcela = pw.numero_parcela := by
        rw [hnum]; exact hx
      simp only [List.find?_cons] at hold
      rw [show ((x.numero_parcela == num) = false) by simpa using hx] at hold
      simp only [writeParcela, List.map_cons] at ih ⊢
      rw [if_neg (by simpa using hx2)]
      simp only [List.find?_cons]
      rw [show ((x.numero_parcela == num) = false) by simpa using hx]
      exact ih hold

theorem find?_map_pred_invariant {h : Parcela → Parcela}
    {pred : Parcela → Bool} (hp : ∀ q, pred (h q) = pred q)
    (l : List Parcela) :
    (l.map h).find? pred = (l.find? pred).map h := by
  rw [List.find?_map]
  have : pred ∘ h = pred := funext hp
  rw [this]

theorem mem_rebalanced_valor {state1 : List Parcela} {num : Nat} {vb : Int}
    {q : Parcela}
    (hq : q ∈ state1.map (fun r =>
      if ajustavelPred num r then { r with valor_parcela := vb } else r))
    (hpred : ajustavelPred num q = true) : q.valor_parcela = vb := by
  obtain ⟨x, hx, rfl⟩ := List.mem_map.mp hq
  by_cases h : ajustavelPred num x = true
  · rw [if_pos h]
  · rw [if_neg h] at hpred ⊢
    exact absurd hpred h

theorem ajustavelPred_update_valor (num : Nat) (q : Parcela) (vb : Int) :
    ajustavelPred num { q with valor_parcela := vb } = ajustavelPred num q := by
  simp [ajustavelPred]

/-- C2 (amended): when an unpaid installment without payment date is
edited to a different amount, at least one other adjustable sibling
exists, and the remaining balance divides evenly among the adjustable
siblings (zero residue), the save rebalances so that the amounts sum to
the plan total, the edited installment keeps its new amount, and every
adjustable sibling holds the even share. -/
theorem rebalanceamento_exato
    (fuel : Nat) (T : Int) (state : List Parcela) (p old : Parcela)
    (hoje : Date)
    (hfind : state.find? (fun q => q.numero_parcela == p.numero_parcela) =
      some old)
    (hpag : p.data_pagamento = none)
    (hstat : p.status ≠ Status.pago)
    (hval : old.valor_parcela ≠ p.valor_parcela)
    (hAj : 0 < (parcelasAjustaveis state p.numero_parcela).length)
    (hres : residuoRebalance T state p hoje = 0) :
    sumValor (saveParcela fuel T true state p hoje) = T ∧
    (saveParcela fuel T true state p hoje).find?
        (fun q => q.numero_parcela == p.numero_parcela) =
      some (recomputeStatusSave p hoje) ∧
    (recomputeStatusSave p hoje).valor_parcela = p.valor_parcela ∧
    ∀ q ∈ saveParcela fuel T true state p hoje,
      ajustavelPred p.numero_parcela q = true →
        q.valor_parcela = valorBaseRebalance T state p hoje := by
  have hnum := recompute_numero p hoje
  have hrun := saveParcela_rebalance_zero_run fuel T state p old hoje hfind
    hpag hstat hval hAj hres
  rw [hrun]
  refine ⟨?_, ?_, recompute_valor p hoje, ?_⟩
  · unfold rebalanceResultado
    rw [sumValor_map_ajustavel]
    unfold residuoRebalance at hres
    dsimp only at hres
    linear_combination -hres
  · unfold rebalanceResultado
    rw [find?_map_pred_invariant (fun q => by
      by_cases hq : ajustavelPred p.numero_parcela q = true <;> simp [hq])]
    rw [find?_writeParcela hnum hfind]
    simp only [Option.map_some']
    rw [if_neg (by simp [ajustavelPred_self_num hnum])]
  · intro q hq hpred
    unfold rebalanceResultado at hq
    exact mem_rebalanced_valor hq hpred

/-- C2 counterexample: for the plan of 1000.00 split 333.33/333.33/333.34
with every installment open, editing installment 1 to 400.01 does not let
the edited installment keep its new amount: the nonzero residue triggers a
nested save whose second rebalance overwrites installment 1 with 350.00,
so the claim as stated fails on this input (the final state sums to
1000.00 but holds 350.00/350.00/300.00). -/
theorem rebalanceamento_sobrescreve_editada :
    parcelaUpdate 10 100000
        [⟨1, 33333, ⟨2026, 1, 10⟩, none, Status.aberto⟩,
         ⟨2, 33333, ⟨2026, 1, 10⟩, none, Status.aberto⟩,
         ⟨3, 33334, ⟨2026, 1, 10⟩, none, Status.aberto⟩]
        1 40001 ⟨2026, 1, 10⟩ ⟨2025, 6, 1⟩ =
      some (false,
        [⟨1, 35000, ⟨2026, 1, 10⟩, none, Status.aberto⟩,
         ⟨2, 35000, ⟨2026, 1, 10⟩, none, Status.aberto⟩,
         ⟨3, 30000, ⟨2026, 1, 10⟩, none, Status.aberto⟩]) ∧
    (35000 : Int) ≠ 40001 := by
  constructor
  · decide
  · decide

/-- C2 witness: the exact-division rebalancing theorem applied to the
specification example: plan 1000.00 split 333.33/333.33/333.34, editing
installment 1 to 400.00; the sum is preserved and installments 2 and 3
end at 300.00 each, summing to 600.00. -/
theorem rebalanceamento_exato_witness :
    sumValor (saveParcela 5 100000 true
        [⟨1, 33333, ⟨2026, 1, 10⟩, none, Status.aberto⟩,
         ⟨2, 33333, ⟨2026, 1, 10⟩, none, Status.aberto⟩,
         ⟨3, 33334, ⟨2026, 1, 10⟩, none, Status.aberto⟩]
        ⟨1, 40000, ⟨2026, 1, 10⟩, none, Status.aberto⟩ ⟨2025, 6, 1⟩) =
      100000 ∧
    saveParcela 5 100000 true
        [⟨1, 33333, ⟨2026, 1, 10⟩, none, Status.aberto⟩,
         ⟨2, 33333, ⟨2026, 1, 10⟩, none, Status.aberto⟩,
         ⟨3, 33334, ⟨2026, 1, 10⟩, none, Status.aberto⟩]
        ⟨1, 40000, ⟨2026, 1, 10⟩, none, Status.aberto⟩ ⟨2025, 6, 1⟩ =
      [⟨1, 40000, ⟨2026, 1, 10⟩, none, Status.aberto⟩,
       ⟨2, 30000, ⟨2026, 1, 10⟩, none, Status.aberto⟩,
       ⟨3, 30000, ⟨2026, 1, 10⟩, none, Status.aberto⟩] :=
  ⟨(rebalanceamento_exato 5 100000 _ _
      ⟨1, 33333, ⟨2026, 1, 10⟩, none, Status.aberto⟩ _
      (by decide) rfl (by decide) (by decide) (by decide) (by decide)).1,
    by decide⟩

/-- C4 (amended): the status recomputed by Parcela.save is a deterministic
function of payment date, previous status, due date and today: a set
payment date forces pago; otherwise a previous pago status is preserved;
otherwise a due date strictly before today gives vencido, else aberto. -/
theorem status_caracterizacao (p : Parcela) (hoje : Date) :
    (recomputeStatusSave p hoje).status =
      if p.data_pagamento.isSome then Status.pago
      else if p.status = Status.pago then Status.pago
      else if p.data_vencimento.before hoje then Status.vencido
      else Status.aberto := by
  unfold recomputeStatusSave
  by_cases h1 : p.data_pagamento.isSome
  · simp [h1]
  · by_cases h2 : p.status = Status.pago <;>
      by_cases h3 : p.data_vencimento.before hoje = true <;>
      simp [h1, h2, h3, bne_iff_ne]

/-- C4 counterexample: an installment stored as pago with no payment date
and a due date strictly before today keeps status pago on save, while the
claim requires vencido; the recomputed status is therefore not a function
of payment date, due date and today alone. -/
theorem status_nao_funcao_de_datas :
    (Date.before ⟨2020, 1, 1⟩ ⟨2021, 6, 1⟩) = true ∧
    (recomputeStatusSave ⟨1, 10000, ⟨2020, 1, 1⟩, none, Status.pago⟩
        ⟨2021, 6, 1⟩).status = Status.pago ∧
    Status.pago ≠ Status.vencido := by
  refine ⟨by decide, by decide, by decide⟩

/-- C6: dar baixa on an installment that is not pago sets the payment date
to the injected today and recomputes the status to pago; on an installment
already pago it only emits the warning (true) and leaves the state
unchanged. -/
theorem dar_baixa_spec (fuel : Nat) (T : Int) (state : List Parcela)
    (pk : Nat) (hoje : Date) (p : Parcela)
    (hfind : state.find? (fun q => q.numero_parcela == pk) = some p) :
    (p.status = Status.pago →
      parcelaDarBaixa fuel T state pk hoje = some (true, state)) ∧
    (p.status ≠ Status.pago →
      parcelaDarBaixa fuel T state pk hoje =
        some (false, writeParcela state
          { p with data_pagamento := some hoje, status := Status.pago })) := by
  have hnum : p.numero_parcela = pk := by
    have := List.find?_some hfind
    simpa using this
  constructor
  · intro h
    unfold parcelaDarBaixa
    rw [hfind]
    dsimp only
    rw [if_pos h]
  · intro h
    unfold parcelaDarBaixa
    rw [hfind]
    dsimp only
    rw [if_neg h]
    have hfind2 : state.find? (fun q => q.numero_parcela ==
        ({ p with data_pagamento := some hoje } : Parcela).numero_parcela) =
          some p := by
      dsimp only
      simp only [hnum]
      exact hfind
    have h1 := saveStep_plain_true T state
      { p with data_pagamento := some hoje } p hoje hfind2 rfl
    rw [saveParcela_step_none fuel T true state _ hoje _ h1]
    rw [recompute_of_some hoje (d := hoje) rfl]

/-- C7: estornar on a pago installment clears the payment date and
recomputes the status to vencido when the due date is strictly before
today and aberto otherwise; on an installment that is not pago it only
emits the warning (true) and leaves the state unchanged. -/
theorem estornar_spec (fuel : Nat) (T : Int) (state : List Parcela)
    (pk : Nat) (hoje : Date) (p : Parcela)
    (hfind : state.find? (fun q => q.numero_parcela == pk) = some p) :
    (p.status ≠ Status.pago →
      parcelaEstornar fuel T state pk hoje = some (true, state)) ∧
    (p.status = Status.pago →
      parcelaEstornar fuel T state pk hoje =
        some (false, writeParcela state
          { p with
              data_pagamento := none,
              status := (if p.data_vencimento.before hoje then Status.vencido
                else Status.aberto) })) := by
  have hnum : p.numero_parcela = pk := by
    have := List.find?_some hfind
    simpa using this
  constructor
  · intro h
    unfold parcelaEstornar
    rw [hfind]
    dsimp only
    rw [if_pos h]
  · intro h
    unfold parcelaEstornar
    rw [hfind]
    dsimp only
    rw [if_neg (show ¬ p.status ≠ Status.pago by simp [h])]
    have hre : recomputeStatusSave
        { p with
            data_pagamento := none,
            status := (if p.data_vencimento.before hoje then Status.vencido
              else Status.aberto) } hoje =
        { p with
            data_pagamento := none,
            status := (if p.data_vencimento.before hoje then Status.vencido
              else Status.aberto) } := by
      rw [recompute_of_unpaid hoje rfl
        (by by_cases hb : p.data_vencimento.before hoje = true <;> simp [hb])]
    have hfind2 : state.find? (fun q => q.numero_parcela ==
        ({ p with
            data_pagamento := none,
            status := (if p.data_vencimento.before hoje then Status.vencido
              else Status.aberto) } : Parcela).numero_parcela) = some p := by
      dsimp only
      simp only [hnum]
      exact hfind
    have h1 := saveStep_plain_true T state
      { p with
          data_pagamento := none,
          status := (if p.data_vencimento.before hoje then Status.vencido
            else Status.aberto) } p hoje hfind2 rfl
    rw [saveParcela_step_none fuel T true state _ hoje _ h1]
    rw [hre]

/-- C8: an edit attempt (new amount or new due date) on an installment
whose status is pago is rejected: the action reports the locked condition
(true) and returns the state unchanged, so every amount of the plan,
including the edited installment, is left as it was. -/
theorem parcela_update_bloqueada (fuel : Nat) (T : Int)
    (state : List Parcela) (pk : Nat) (novoValor : Int)
    (novoVencimento hoje : Date) (p : Parcela)
    (hfind : state.find? (fun q => q.numero_parcela == pk) = some p)
    (hpago : p.status = Status.pago) :
    parcelaUpdate fuel T state pk novoValor novoVencimento hoje =
      some (true, state) := by
  unfold parcelaUpdate
  rw [hfind]
  dsimp only
  rw [if_pos hpago]

/-- C9: the overdue sweep of conta_detail is idempotent: running it twice
against the same reference date produces exactly the state obtained by
running it once, for every installment state. -/
theorem sweep_idempotente (state : List Parcela) (hoje : Date) :
    atualizaVencidas (atualizaVencidas state hoje) hoje =
      atualizaVencidas state hoje := by
  unfold atualizaVencidas
  rw [List.map_map]
  apply List.map_congr_left
  intro q _
  by_cases h : (q.status == Status.aberto &&
      q.data_vencimento.before hoje) = true
  · simp [Function.comp, h]
  · simp [Function.comp, h]

/-- C10: a generic save of an installment stored as pago with no payment
date leaves the status pago (the save never demotes a paid status), and
the explicit estornar action is what recomputes it back, to vencido when
the due date is past and aberto otherwise. -/
theorem save_preserva_pago (fuel : Nat) (T : Int) (state : List Parcela)
    (p : Parcela) (hoje : Date)
    (hst : p.status = Status.pago) (hpag : p.data_pagamento = none)
    (hfind : state.find?
      (fun q => q.numero_parcela == p.numero_parcela) = some p) :
    (recomputeStatusSave p hoje).status = Status.pago ∧
    saveParcela fuel T true state p hoje = writeParcela state p ∧
    parcelaEstornar fuel T state p.numero_parcela hoje =
      some (false, writeParcela state
        { p with
            data_pagamento := none,
            status := (if p.data_vencimento.before hoje then Status.vencido
              else Status.aberto) }) := by
  have hre : recomputeStatusSave p hoje = p :=
    recompute_of_pago_none hoje hpag hst
  refine ⟨by rw [hre, hst], ?_, ?_⟩
  · have h1 := saveStep_plain_true T state p p hoje hfind rfl
    rw [saveParcela_step_none fuel T true state _ hoje _ h1, hre]
  · unfold parcelaEstornar
    rw [hfind]
    dsimp only
    rw [if_neg (show ¬ p.status ≠ Status.pago by simp [hst])]
    have hre2 : recomputeStatusSave
        { p with
            data_pagamento := none,
            status := (if p.data_vencimento.before hoje then Status.vencido
              else Status.aberto) } hoje =
        { p with
            data_pagamento := none,
            status := (if p.data_vencimento.before hoje then Status.vencido
              else Status.aberto) } := by
      rw [recompute_of_unpaid hoje rfl
        (by by_cases hb : p.data_vencimento.before hoje = true <;> simp [hb])]
    have hfind2 : state.find? (fun q => q.numero_parcela ==
        ({ p with
            data_pagamento := none,
            status := (if p.data_vencimento.before hoje then Status.vencido
              else Status.aberto) } : Parcela).numero_parcela) = some p := by
      dsimp only
      exact hfind
    have h1 := saveStep_plain_true T state
      { p with
          data_pagamento := none,
          status := (if p.data_vencimento.before hoje then Status.vencido
            else Status.aberto) } p hoje hfind2 rfl
    rw [saveParcela_step_none fuel T true state _ hoje _ h1]
    rw [hre2]

theorem addToLast_replicate (m : Nat) (v d : Int) :
    addToLast (List.replicate (m + 1) v) d = List.replicate m v ++ [v + d] := by
  induction m with
  | zero => rfl
  | succ k ih =>
    rw [List.replicate_succ, List.replicate_succ]
    show v :: addToLast (v :: List.replicate k v) d = _
    rw [← List.replicate_succ, ih, List.replicate_succ]
    rfl

/-- C3 (amended): for a positive part count the helper returns count
parts, each equal to the quotient rounded HALF-UP (not truncated) to the
cent, except the last one, which additionally absorbs the difference
between the total and count times the rounded quotient; the parts sum to
the total exactly, but the absorbed difference can be negative. -/
theorem calcular_parcelas_caracterizacao (T : Int) (m : Nat) :
    calcular_parcelas T (m + 1) true =
      List.replicate m (roundHalfUpCents T (m + 1)) ++
        [roundHalfUpCents T (m + 1) +
          (T - roundHalfUpCents T (m + 1) * (m + 1))] ∧
    (calcular_parcelas T (m + 1) true).sum = T ∧
    (calcular_parcelas T (m + 1) true).length = m + 1 := by
  have h1 : calcular_parcelas T (m + 1) true =
      List.replicate m (roundHalfUpCents T (m + 1)) ++
        [roundHalfUpCents T (m + 1) +
          (T - roundHalfUpCents T (m + 1) * (m + 1))] := by
    unfold calcular_parcelas
    dsimp only
    rw [if_pos rfl]
    have h2 := addToLast_replicate m (roundHalfUpCents T ((m + 1 : Nat) : Int))
      (T - roundHalfUpCents T ((m + 1 : Nat) : Int) * ((m + 1 : Nat) : Int))
    convert h2 using 3
  refine ⟨h1, ?_, ?_⟩
  · rw [h1, List.sum_append, List.sum_replicate, List.sum_cons, List.sum_nil]
    push_cast [nsmul_eq_mul]
    ring
  · rw [h1]
    simp

/-- C3 counterexample: dividing 0.02 into 4 parts yields parts of
0.01, 0.01, 0.01 and -0.01: the parts are the half-up rounded quotient, not the
truncated one, and the last part is negative, refuting both the
floor-rounding and the no-negative-amount clauses of the claim. -/
theorem calcular_parcelas_parte_negativa :
    calcular_parcelas 2 4 true = [1, 1, 1, -1] ∧
    (-1 : Int) ∈ calcular_parcelas 2 4 true ∧
    (-1 : Int) < 0 ∧
    (2 : Int).tdiv 4 = 0 ∧
    calcular_parcelas 2 4 true ≠ [0, 0, 0, 2] := by
  refine ⟨by decide, by decide, by decide, by decide, by decide⟩

theorem writeParcela_append (a b : List Parcela) (pw : Parcela) :
    writeParcela (a ++ b) pw = writeParcela a pw ++ writeParcela b pw := by
  simp [writeParcela]

theorem writeParcela_id_of (l : List Parcela) (pw : Parcela)
    (h : ∀ x ∈ l, x.numero_parcela ≠ pw.numero_parcela) :
    writeParcela l pw = l :=
  map_eq_self_of (fun x hx => by simp [h x hx])

theorem contaCreate_explicit (fuel : Nat) (T : Int) (m : Nat)
    (primeiro hoje : Date) :
    ∃ st : Status,
      contaCreate fuel T (m + 1) primeiro hoje =
        (List.range m).map (fun i =>
          { numero_parcela := i + 1,
            valor_parcela := roundHalfUpCents T ((m + 1 : Nat) : Int),
            data_vencimento := addMonths primeiro i,
            data_pagamento := none,
            status := Status.aberto : Parcela }) ++
        [{ numero_parcela := m + 1,
           valor_parcela := roundHalfUpCents T ((m + 1 : Nat) : Int) +
             (T - roundHalfUpCents T ((m + 1 : Nat) : Int) *
               ((m + 1 : Nat) : Int)),
           data_vencimento := addMonths primeiro m,
           data_pagamento := none,
           status := st }] := by
  unfold contaCreate
  dsimp only
  set v : Int := roundHalfUpCents T ((m + 1 : Nat) : Int) with hvdef
  set g : Nat → Parcela := fun i =>
    { numero_parcela := i + 1, valor_parcela := v,
      data_vencimento := addMonths primeiro i,
      data_pagamento := none, status := Status.aberto } with hgdef
  have hmem : ∀ x ∈ (List.range m).map g, ∃ i, i < m ∧ x = g i := by
    intro x hx
    obtain ⟨i, hi, rfl⟩ := List.mem_map.mp hx
    exact ⟨i, List.mem_range.mp hi, rfl⟩
  by_cases hd : T - v * ((m + 1 : Nat) : Int) = 0
  · rw [if_neg (by simpa using hd)]
    refine ⟨Status.aberto, ?_⟩
    rw [List.range_succ, List.map_append]
    simp only [List.map_cons, List.map_nil]
    rw [hd]
    simp [hgdef]
  · rw [if_pos (by simpa using hd)]
    rw [List.range_succ, List.map_append]
    simp only [List.map_cons, List.map_nil]
    rw [List.getLast?_concat]
    dsimp only
    have hpe : ({ g m with
        valor_parcela := (g m).valor_parcela +
          (T - v * ((m + 1 : Nat) : Int)) } : Parcela) =
        ({ numero_parcela := m + 1,
           valor_parcela := v + (T - v * ((m + 1 : Nat) : Int)),
           data_vencimento := addMonths primeiro m,
           data_pagamento := none,
           status := Status.aberto } : Parcela) := by
      rw [hgdef]
    rw [hpe]
    refine ⟨if (addMonths primeiro m).before hoje then Status.vencido
      else Status.aberto, ?_⟩
    have hpw : recomputeStatusSave
        ({ numero_parcela := m + 1,
           valor_parcela := v + (T - v * ((m + 1 : Nat) : Int)),
           data_vencimento := addMonths primeiro m,
           data_pagamento := none,
           status := Status.aberto } : Parcela) hoje =
        ({ numero_parcela := m + 1,
           valor_parcela := v + (T - v * ((m + 1 : Nat) : Int)),
           data_vencimento := addMonths primeiro m,
           data_pagamento := none,
           status := (if (addMonths primeiro m).before hoje then Status.vencido
             else Status.aberto) } : Parcela) :=
      recompute_of_unpaid hoje rfl (by simp)
    have hfind : ((List.range m).map g ++ [g m]).find?
        (fun q => q.numero_parcela == (m + 1)) = some (g m) := by
      rw [find?_append_left_none (fun x hx => ?_)]
      · simp [hgdef]
      · obtain ⟨i, hi, rfl⟩ := hmem x hx
        simp [hgdef]
        omega
    have hvalne : (g m).valor_parcela ≠
        (({ numero_parcela := m + 1,
            valor_parcela := v + (T - v * ((m + 1 : Nat) : Int)),
            data_vencimento := addMonths primeiro m,
            data_pagamento := none,
            status := Status.aberto } : Parcela)).valor_parcela := by
      rw [hgdef]
      dsimp only
      intro hcon
      apply hd
      linarith
    have hstat : (({ numero_parcela := m + 1,
                     valor_parcela := v + (T - v * ((m + 1 : Nat) : Int)),
                     data_vencimento := addMonths primeiro m,
                     data_pagamento := none,
                     status := Status.aberto } : Parcela)).status ≠
        Status.pago := by
      simp
    have hstate1 : writeParcela ((List.range m).map g ++ [g m])
        ({ numero_parcela := m + 1,
           valor_parcela := v + (T - v * ((m + 1 : Nat) : Int)),
           data_vencimento := addMonths primeiro m,
           data_pagamento := none,
           status := (if (addMonths primeiro m).before hoje then Status.vencido
             else Status.aberto) } : Parcela) =
        (List.range m).map g ++
          [{ numero_parcela := m + 1,
             valor_parcela := v + (T - v * ((m + 1 : Nat) : Int)),
             data_vencimento := addMonths primeiro m,
             data_pagamento := none,
             status := (if (addMonths primeiro m).before hoje then
               Status.vencido else Status.aberto) }] := by
      rw [writeParcela_append]
      rw [writeParcela_id_of _ _ (fun x hx => ?_)]
      · simp [writeParcela, hgdef]
      · obtain ⟨i, hi, rfl⟩ := hmem x hx
        simp [hgdef]
        omega
    have hfiltA : List.filter (ajustavelPred (m + 1))
        ((List.range m).map g) = (List.range m).map g := by
      apply List.filter_eq_self.mpr
      intro x hx
      obtain ⟨i, hi, rfl⟩ := hmem x hx
      simp [ajustavelPred, hgdef]
      omega
    have hfiltAc : List.filter (fun q => !(ajustavelPred (m + 1) q))
        ((List.range m).map g) = [] := by
      apply List.filter_eq_nil_iff.mpr
      intro x hx
      obtain ⟨i, hi, rfl⟩ := hmem x hx
      simp [ajustavelPred, hgdef]
      omega
    rcases Nat.eq_zero_or_pos m with hm0 | hmpos
    · subst hm0
      have hAj0 : (parcelasAjustaveis ((List.range 0).map g ++ [g 0])
          ((1 : Nat))).length = 0 := by
        simp [parcelasAjustaveis, ajustavelPred, hgdef]
      rw [saveParcela_step_none fuel T true _ _ hoje _
        (saveStep_rebalance_empty T _ _ (g 0) hoje hfind rfl hstat hvalne hAj0)]
      rw [hpw]
      simpa using hstate1
    · have hAeq : parcelasAjustaveis ((List.range m).map g ++ [g m]) (m + 1) =
          (List.range m).map g := by
        have hg1 : List.filter (ajustavelPred (m + 1)) [g m] = [] := by
          simp [ajustavelPred, hgdef]
        unfold parcelasAjustaveis
        rw [List.filter_append, hfiltA, hg1, List.append_nil]
      have hAeq1 : parcelasAjustaveis ((List.range m).map g ++
          [{ numero_parcela := m + 1,
             valor_parcela := v + (T - v * ((m + 1 : Nat) : Int)),
             data_vencimento := addMonths primeiro m,
             data_pagamento := none,
             status := (if (addMonths primeiro m).before hoje then
               Status.vencido else Status.aberto) }]) (m + 1) =
          (List.range m).map g := by
        have hg1 : List.filter (ajustavelPred (m + 1))
            [({ numero_parcela := m + 1,
                valor_parcela := v + (T - v * ((m + 1 : Nat) : Int)),
                data_vencimento := addMonths primeiro m,
                data_pagamento := none,
                status := (if (addMonths primeiro m).before hoje then
                  Status.vencido else Status.aberto) } : Parcela)] = [] := by
          simp [ajustavelPred]
        unfold parcelasAjustaveis
        rw [List.filter_append, hfiltA, hg1, List.append_nil]
      have hsoma : somaNaoAjustaveis ((List.range m).map g ++
          [{ numero_parcela := m + 1,
             valor_parcela := v + (T - v * ((m + 1 : Nat) : Int)),
             data_vencimento := addMonths primeiro m,
             data_pagamento := none,
             status := (if (addMonths primeiro m).before hoje then
               Status.vencido else Status.aberto) }]) (m + 1) =
          v + (T - v * ((m + 1 : Nat) : Int)) := by
        have hg1 : List.filter (fun q => !(ajustavelPred (m + 1) q))
            [({ numero_parcela := m + 1,
                valor_parcela := v + (T - v * ((m + 1 : Nat) : Int)),
                data_vencimento := addMonths primeiro m,
                data_pagamento := none,
                status := (if (addMonths primeiro m).before hoje then
                  Status.vencido else Status.aberto) } : Parcela)] =
            [({ numero_parcela := m + 1,
                valor_parcela := v + (T - v * ((m + 1 : Nat) : Int)),
                data_vencimento := addMonths primeiro m,
                data_pagamento := none,
                status := (if (addMonths primeiro m).before hoje then
                  Status.vencido else Status.aberto) } : Parcela)] := by
          simp [ajustavelPred]
        unfold somaNaoAjustaveis
        rw [List.filter_append, hfiltAc, hg1, List.nil_append]
        simp [sumValor]
      have hvb : valorBaseRebalance T ((List.range m).map g ++ [g m])
          ({ numero_parcela := m + 1,
             valor_parcela := v + (T - v * ((m + 1 : Nat) : Int)),
             data_vencimento := addMonths primeiro m,
             data_pagamento := none,
             status := Status.aberto } : Parcela) hoje = v := by
        unfold valorBaseRebalance
        dsimp only
        rw [hpw, hstate1, hsoma, hAeq1]
        rw [List.length_map, List.length_range]
        have harit : T - (v + (T - v * ((m + 1 : Nat) : Int))) =
            v * ((m : Nat) : Int) := by
          push_cast
          ring
        rw [harit]
        refine Int.mul_tdiv_cancel v ?_
        exact_mod_cast hmpos.ne'
      have hres : residuoRebalance T ((List.range m).map g ++ [g m])
          ({ numero_parcela := m + 1,
             valor_parcela := v + (T - v * ((m + 1 : Nat) : Int)),
             data_vencimento := addMonths primeiro m,
             data_pagamento := none,
             status := Status.aberto } : Parcela) hoje = 0 := by
        unfold residuoRebalance
        dsimp only
        rw [hvb, hpw, hstate1, hsoma, hAeq1]
        rw [List.length_map, List.length_range]
        push_cast
        ring
      have hAj : 0 < (parcelasAjustaveis ((List.range m).map g ++ [g m])
          ((m + 1 : Nat))).length := by
        rw [hAeq]
        simpa using hmpos
      rw [saveParcela_rebalance_zero_run fuel T _ _ (g m) hoje hfind rfl
        hstat hvalne hAj hres]
      unfold rebalanceResultado
      rw [hpw, hstate1, hvb]
      rw [List.map_append]
      simp only [List.map_cons, List.map_nil]
      congr 1
      · apply map_eq_self_of
        intro x hx
        obtain ⟨i, hi, rfl⟩ := hmem x hx
        rw [if_pos (by simp [ajustavelPred, hgdef]; omega)]
      · rw [if_neg (by simp [ajustavelPred])]

/-- C1: for every valid input (total amount above zero, installment count
between 1 and 120, any first due date), plan creation produces exactly
count installment rows whose amounts sum exactly to the total, to the
cent. -/
theorem conta_create_soma_total (fuel : Nat) (T : Int) (n : Nat)
    (primeiro hoje : Date)
    (hT : 0 < T) (hn : 1 ≤ n) (hcap : n ≤ 120) :
    (contaCreate fuel T n primeiro hoje).length = n ∧
    sumValor (contaCreate fuel T n primeiro hoje) = T := by
  obtain ⟨m, rfl⟩ : ∃ m, n = m + 1 := ⟨n - 1, by omega⟩
  obtain ⟨st, hst⟩ := contaCreate_explicit fuel T m primeiro hoje
  rw [hst]
  constructor
  · simp
  · rw [sumValor_append,
      sumValor_map_range (v := roundHalfUpCents T ((m + 1 : Nat) : Int))
        (fun i => rfl)]
    simp only [sumValor, List.map_cons, List.map_nil, List.sum_cons,
      List.sum_nil]
    push_cast
    ring

/-- C1 witness: plan creation at total 1000.00, three installments. -/
theorem conta_create_soma_total_witness :
    ((0 : Int) < 100000 ∧ 1 ≤ 3 ∧ 3 ≤ 120) ∧
    (contaCreate 5 100000 3 ⟨2026, 1, 10⟩ ⟨2025, 6, 1⟩).length = 3 ∧
    sumValor (contaCreate 5 100000 3 ⟨2026, 1, 10⟩ ⟨2025, 6, 1⟩) = 100000 :=
  ⟨⟨by decide, by decide, by decide⟩,
    conta_create_soma_total 5 100000 3 ⟨2026, 1, 10⟩ ⟨2025, 6, 1⟩
      (by decide) (by decide) (by decide)⟩

theorem filter_replicate_char (p : Char → Bool) (c : Char) (n : Nat) :
    (List.replicate n c).filter p =
      if p c then List.replicate n c else [] := by
  induction n with
  | zero => simp
  | succ k ih =>
    by_cases h : p c = true <;>
      simp [List.replicate_succ, List.filter_cons, h, ih]

theorem validate_cpf_repetido (c : Char) :
    validate_cpf (String.mk (List.replicate 11 c)) = false := by
  unfold validate_cpf limpar_documento
  by_cases h : c.isDigit = true
  · rw [show (String.mk (List.replicate 11 c)).data =
      List.replicate 11 c from rfl]
    rw [filter_replicate_char, if_pos h]
    dsimp only
    rw [if_neg (by simp)]
    rw [if_pos (by rfl)]
  · rw [show (String.mk (List.replicate 11 c)).data =
      List.replicate 11 c from rfl]
    rw [filter_replicate_char, if_neg h]
    rfl

theorem validate_cpf_tamanho (s : String)
    (h : (limpar_documento s).length ≠ 11) : validate_cpf s = false := by
  unfold validate_cpf
  dsimp only
  rw [if_pos (Or.inr h)]

theorem validate_cnpj_tamanho (s : String)
    (h : (limpar_documento s).length ≠ 14) : validate_cnpj s = false := by
  unfold validate_cnpj
  dsimp only
  rw [if_pos (Or.inr h)]

/-- C5: the tax id validators give the verdicts the specification fixes:
any string of eleven equal characters is rejected as a CPF (an eleven
times repeated digit in particular), the reference CPF 11144477735 is
accepted, 12345678900 is rejected, the reference CNPJ 11222333000181 is
accepted, 11111111111111 is rejected, and an input whose digit-stripped
length differs from eleven (CPF) or fourteen (CNPJ) is rejected before any
checksum evaluation. -/
theorem validadores_documento :
    (∀ c : Char, validate_cpf (String.mk (List.replicate 11 c)) = false) ∧
    validate_cpf "11144477735" = true ∧
    validate_cpf "12345678900" = false ∧
    validate_cnpj "11222333000181" = true ∧
    validate_cnpj "11111111111111" = false ∧
    (∀ s : String, (limpar_documento s).length ≠ 11 →
      validate_cpf s = false) ∧
    (∀ s : String, (limpar_documento s).length ≠ 14 →
      validate_cnpj s = false) :=
  ⟨validate_cpf_repetido, by decide, by decide, by decide, by decide,
    validate_cpf_tamanho, validate_cnpj_tamanho⟩

/-- C5 witness: the validator verdicts instantiated at concrete inputs
with the length and repetition hypotheses discharged there. -/
theorem validadores_documento_witness :
    validate_cpf "11111111111" = false ∧
    validate_cpf "123" = false ∧
    validate_cnpj "12345" = false :=
  ⟨validadores_documento.1 '1',
    validadores_documento.2.2.2.2.2.1 "123" (by decide),
    validadores_documento.2.2.2.2.2.2 "12345" (by decide)⟩

/-- C6 witness: registering payment of an open installment on 2025-06-01
stores that payment date and the pago status; the action on an already
paid installment is exercised through the first component. -/
theorem dar_baixa_spec_witness :
    parcelaDarBaixa 3 5000 [⟨1, 5000, ⟨2026, 1, 10⟩, none, Status.aberto⟩]
        1 ⟨2025, 6, 1⟩ =
      some (false,
        [⟨1, 5000, ⟨2026, 1, 10⟩, some ⟨2025, 6, 1⟩, Status.pago⟩]) ∧
    parcelaDarBaixa 3 5000
        [⟨1, 5000, ⟨2026, 1, 10⟩, some ⟨2025, 5, 1⟩, Status.pago⟩]
        1 ⟨2025, 6, 1⟩ =
      some (true, [⟨1, 5000, ⟨2026, 1, 10⟩, some ⟨2025, 5, 1⟩,
        Status.pago⟩]) := by
  constructor
  · have h := (dar_baixa_spec 3 5000
      [⟨1, 5000, ⟨2026, 1, 10⟩, none, Status.aberto⟩] 1 ⟨2025, 6, 1⟩
      ⟨1, 5000, ⟨2026, 1, 10⟩, none, Status.aberto⟩ (by decide)).2 (by decide)
    rw [h]
    decide
  · exact (dar_baixa_spec 3 5000
      [⟨1, 5000, ⟨2026, 1, 10⟩, some ⟨2025, 5, 1⟩, Status.pago⟩] 1
      ⟨2025, 6, 1⟩ ⟨1, 5000, ⟨2026, 1, 10⟩, some ⟨2025, 5, 1⟩, Status.pago⟩
      (by decide)).1 (by decide)

/-- C7 witness: reversing the payment of a paid installment whose due date
has not yet passed clears the payment date and recomputes aberto; on an
overdue one it recomputes vencido; on an open installment the action only
warns. -/
theorem estornar_spec_witness :
    parcelaEstornar 3 5000
        [⟨1, 5000, ⟨2026, 1, 10⟩, some ⟨2025, 5, 1⟩, Status.pago⟩]
        1 ⟨2025, 6, 1⟩ =
      some (false, [⟨1, 5000, ⟨2026, 1, 10⟩, none, Status.aberto⟩]) ∧
    parcelaEstornar 3 5000
        [⟨1, 5000, ⟨2020, 1, 10⟩, some ⟨2025, 5, 1⟩, Status.pago⟩]
        1 ⟨2025, 6, 1⟩ =
      some (false, [⟨1, 5000, ⟨2020, 1, 10⟩, none, Status.vencido⟩]) ∧
    parcelaEstornar 3 5000 [⟨1, 5000, ⟨2026, 1, 10⟩, none, Status.aberto⟩]
        1 ⟨2025, 6, 1⟩ =
      some (true, [⟨1, 5000, ⟨2026, 1, 10⟩, none, Status.aberto⟩]) := by
  refine ⟨?_, ?_, ?_⟩
  · have h := (estornar_spec 3 5000
      [⟨1, 5000, ⟨2026, 1, 10⟩, some ⟨2025, 5, 1⟩, Status.pago⟩] 1
      ⟨2025, 6, 1⟩ ⟨1, 5000, ⟨2026, 1, 10⟩, some ⟨2025, 5, 1⟩, Status.pago⟩
      (by decide)).2 (by decide)
    rw [h]
    decide
  · have h := (estornar_spec 3 5000
      [⟨1, 5000, ⟨2020, 1, 10⟩, some ⟨2025, 5, 1⟩, Status.pago⟩] 1
      ⟨2025, 6, 1⟩ ⟨1, 5000, ⟨2020, 1, 10⟩, some ⟨2025, 5, 1⟩, Status.pago⟩
      (by decide)).2 (by decide)
    rw [h]
    decide
  · exact (estornar_spec 3 5000
      [⟨1, 5000, ⟨2026, 1, 10⟩, none, Status.aberto⟩] 1 ⟨2025, 6, 1⟩
      ⟨1, 5000, ⟨2026, 1, 10⟩, none, Status.aberto⟩ (by decide)).1 (by decide)

/-- C8 witness: editing a paid installment is refused and the plan state,
amounts included, is returned untouched. -/
theorem parcela_update_bloqueada_witness :
    parcelaUpdate 3 10000
        [⟨1, 5000, ⟨2026, 1, 10⟩, some ⟨2025, 5, 1⟩, Status.pago⟩,
         ⟨2, 5000, ⟨2026, 2, 10⟩, none, Status.aberto⟩]
        1 7000 ⟨2026, 1, 10⟩ ⟨2025, 6, 1⟩ =
      some (true,
        [⟨1, 5000, ⟨2026, 1, 10⟩, some ⟨2025, 5, 1⟩, Status.pago⟩,
         ⟨2, 5000, ⟨2026, 2, 10⟩, none, Status.aberto⟩]) :=
  parcela_update_bloqueada 3 10000
    [⟨1, 5000, ⟨2026, 1, 10⟩, some ⟨2025, 5, 1⟩, Status.pago⟩,
     ⟨2, 5000, ⟨2026, 2, 10⟩, none, Status.aberto⟩]
    1 7000 ⟨2026, 1, 10⟩ ⟨2025, 6, 1⟩
    ⟨1, 5000, ⟨2026, 1, 10⟩, some ⟨2025, 5, 1⟩, Status.pago⟩
    (by decide) (by decide)

/-- C10 witness: a save of an overdue installment stored as pago with a
null payment date keeps the pago status, and the explicit estornar action
recomputes it to vencido. -/
theorem save_preserva_pago_witness :
    (recomputeStatusSave ⟨1, 5000, ⟨2020, 1, 10⟩, none, Status.pago⟩
        ⟨2025, 6, 1⟩).status = Status.pago ∧
    saveParcela 3 5000 true
        [⟨1, 5000, ⟨2020, 1, 10⟩, none, Status.pago⟩]
        ⟨1, 5000, ⟨2020, 1, 10⟩, none, Status.pago⟩ ⟨2025, 6, 1⟩ =
      [⟨1, 5000, ⟨2020, 1, 10⟩, none, Status.pago⟩] ∧
    parcelaEstornar 3 5000 [⟨1, 5000, ⟨2020, 1, 10⟩, none, Status.pago⟩]
        1 ⟨2025, 6, 1⟩ =
      some (false, [⟨1, 5000, ⟨2020, 1, 10⟩, none, Status.vencido⟩]) := by
  have h := save_preserva_pago 3 5000
    [⟨1, 5000, ⟨2020, 1, 10⟩, none, Status.pago⟩]
    ⟨1, 5000, ⟨2020, 1, 10⟩, none, Status.pago⟩ ⟨2025, 6, 1⟩
    (by decide) rfl (by decide)
  refine ⟨h.1, ?_, ?_⟩
  · rw [h.2.1]
    decide
  · rw [h.2.2]
    decide

end Financeiro
